import Mathlib

/-! Render-pass orchestration of the black hole simulation.

A shallow embedding of `src/shader.cpp` (shader program creation) and of
`src/main_wasm.cpp` (`PostProcessPass` and `main_loop`), followed by theorems
about the pass chain that one call of `main_loop` issues.

Conventions of the embedding:

* `GLuint` handles are natural numbers; they are only stored and compared with
  `0`, never computed with.
* Everything the program obtains from a collaborator (the graphics driver, the
  asset loaders, the UI slider) is read from an environment record, so that a
  theorem quantifies over every behaviour of the collaborator.
* `renderToTexture` (declared in `render.h`) is a collaborator: a call to it is
  recorded, with its complete descriptor, in the list of calls that `main_loop`
  returns.
* A C++ `throw` is `Except.error`; text written to standard output is not
  modelled.
* Values of type `float` are not modelled: a float uniform is recorded by its
  name only.
-/

namespace BlackHole

/-- OpenGL object name (`GLuint`). -/
abbrev GLuint := Nat

/-! ## `shader.cpp` -/

/-- The two shader stages passed to `compileShader` (`GL_VERTEX_SHADER`,
`GL_FRAGMENT_SHADER`). -/
inductive ShaderType
  | vertex
  | fragment
deriving DecidableEq, Repr

/-- What the driver reports for one `glCreateShader` / `glCompileShader`:
the shader name, `GL_COMPILE_STATUS` and `GL_INFO_LOG_LENGTH`. -/
structure CompileResult where
  shader : GLuint
  success : Bool
  infoLogLength : Int
deriving DecidableEq, Repr

/-- The collaborators of `shader.cpp`: the file system and the GL driver. -/
structure ShaderDriver where
  /-- Contents of a file, `none` when `ifs.is_open()` is false. -/
  openFile : String → Option String
  /-- Outcome of compiling a source text as a stage. -/
  glCompileShader : String → ShaderType → CompileResult
  /-- Name returned by `glCreateProgram`. -/
  glCreateProgram : GLuint
  /-- `GL_LINK_STATUS` after `glLinkProgram` of program, vertex, fragment. -/
  glLinkStatus : GLuint → GLuint → GLuint → Bool
  /-- `GL_INFO_LOG_LENGTH` of the program after linking. -/
  glProgramInfoLogLength : GLuint → Int

/-- `readFile`: the file's text, with the desktop version line replaced by the
WebGL2 one (the `__EMSCRIPTEN__` branch); throws when the file cannot be
opened. -/
def readFile (d : ShaderDriver) (file : String) : Except String String :=
  match d.openFile file with
  | some shaderCode =>
      .ok (shaderCode.replace "#version 330 core" "#version 300 es\nprecision highp float;")
  | none => .error ("Failed to open file: " ++ file)

/-- `compileShader`: throws when the compile status is false, whatever the
length of the info log (the log length only selects the message printed);
otherwise returns the shader name. -/
def compileShader (d : ShaderDriver) (shaderSource : String) (shaderType : ShaderType) :
    Except String GLuint :=
  let r := d.glCompileShader shaderSource shaderType
  if r.success = false then
    .error "Failed to compile the shader."
  else
    .ok r.shader

/-- `createShaderProgram`: compiles the vertex stage, then the fragment stage,
links, and returns the program name. The `throw` of the link check sits inside
`if (maxLength > 0)`. -/
def createShaderProgram (d : ShaderDriver) (vertexShaderFile fragmentShaderFile : String) :
    Except String GLuint :=
  match readFile d vertexShaderFile with
  | .error e => .error e
  | .ok vertexSource =>
  match compileShader d vertexSource .vertex with
  | .error e => .error e
  | .ok vertexShader =>
  match readFile d fragmentShaderFile with
  | .error e => .error e
  | .ok fragmentSource =>
  match compileShader d fragmentSource .fragment with
  | .error e => .error e
  | .ok fragmentShader =>
    let program := d.glCreateProgram
    let isLinked := d.glLinkStatus program vertexShader fragmentShader
    if isLinked = false then
      let maxLength := d.glProgramInfoLogLength program
      if maxLength > 0 then
        .error "Failed to link the shader."
      else
        .ok program
    else
      .ok program

/-! ## `main_wasm.cpp`: data -/

def SCR_WIDTH : Nat := 1024

def SCR_HEIGHT : Nat := 768

/-- `struct AppState`; the two arrays have eight entries, all zero at start. -/
structure AppState where
  galaxy : GLuint := 0
  colorMap : GLuint := 0
  uvChecker : GLuint := 0
  texBlackhole : GLuint := 0
  texBrightness : GLuint := 0
  texDownsampled : List GLuint := List.replicate 8 0
  texUpsampled : List GLuint := List.replicate 8 0
  texBloomFinal : GLuint := 0
  texTonemapped : GLuint := 0
  quadVAO : GLuint := 0
  initialized : Bool := false
deriving DecidableEq, Repr

/-- `class PostProcessPass`: its only member is the program name. -/
structure PostProcessPass where
  program : GLuint
deriving DecidableEq, Repr

/-- The constructor `PostProcessPass(fragShader)`: the program is whatever
`createShaderProgram` returns (a throw propagates); the uniform set-up that
follows when the program is non-zero does not change the object. -/
def PostProcessPass.construct (d : ShaderDriver) (fragShader : String) :
    Except String PostProcessPass :=
  match createShaderProgram d "shader/simple.vert" fragShader with
  | .ok program => .ok { program := program }
  | .error e => .error e

/-! ## `PostProcessPass::render` on a modelled graphics state -/

/-- The two clear colours of the file: `(0, 0, 0, 1)` and `(0.2, 0, 0.5, 1)`. -/
inductive ClearColour
  | black
  | purple
deriving DecidableEq, Repr

/-- The graphics commands that `PostProcessPass::render` issues. -/
inductive GLCmd
  | bindFramebuffer (framebuffer : GLuint)
  | disableDepthTest
  | clearColor (c : ClearColour)
  | clearColorBuffer
  | useProgram (program : GLuint)
  | uniform2f (program : GLuint) (name : String) (x y : Nat)
  | uniform1f (program : GLuint) (name : String)
  | activeTexture (unit : Nat)
  | bindTexture2D (texture : GLuint)
  | drawArrays (first count : Nat)
deriving DecidableEq, Repr

/-- One executed draw: the program in use, the framebuffer drawn to and the 2D
texture bound to unit 0 at the time of the draw. -/
structure Draw where
  program : GLuint
  framebuffer : GLuint
  texture0 : GLuint
deriving DecidableEq, Repr

/-- The modelled graphics state: current bindings, the commands issued so far
and the draws executed so far. -/
structure GLState where
  framebuffer : GLuint := 0
  depthTest : Bool := false
  clearColor : ClearColour := .black
  program : GLuint := 0
  activeUnit : Nat := 0
  texture2D : Nat → GLuint := fun _ => 0
  issued : List GLCmd := []
  draws : List Draw := []

/-- Effect of one command on the bindings; every command is also appended to
`issued`. -/
def GLState.exec (g : GLState) (c : GLCmd) : GLState :=
  let g1 := { g with issued := g.issued ++ [c] }
  match c with
  | .bindFramebuffer fb => { g1 with framebuffer := fb }
  | .disableDepthTest => { g1 with depthTest := false }
  | .clearColor col => { g1 with clearColor := col }
  | .clearColorBuffer => g1
  | .useProgram p => { g1 with program := p }
  | .uniform2f _ _ _ _ => g1
  | .uniform1f _ _ => g1
  | .activeTexture u => { g1 with activeUnit := u }
  | .bindTexture2D t =>
      { g1 with texture2D := fun u => if u = g1.activeUnit then t else g1.texture2D u }
  | .drawArrays _ _ =>
      { g1 with draws := g1.draws ++
          [{ program := g1.program, framebuffer := g1.framebuffer, texture0 := g1.texture2D 0 }] }

/-- The command sequence of the body of `PostProcessPass::render` after the
program check, in source order. -/
def PostProcessPass.renderCommands (p : PostProcessPass) (inputColorTexture destFramebuffer : GLuint) :
    List GLCmd :=
  [ .bindFramebuffer destFramebuffer,
    .disableDepthTest,
    .clearColor .black,
    .clearColorBuffer,
    .useProgram p.program,
    .uniform2f p.program "resolution" SCR_WIDTH SCR_HEIGHT,
    .uniform1f p.program "time",
    .activeTexture 0,
    .bindTexture2D inputColorTexture,
    .drawArrays 0 6,
    .useProgram 0 ]

/-- `PostProcessPass::render`: returns at once when the program is zero,
otherwise issues the commands of the body. -/
def PostProcessPass.render (p : PostProcessPass) (inputColorTexture : GLuint)
    (destFramebuffer : GLuint) (g : GLState) : GLState :=
  if p.program = 0 then g
  else (p.renderCommands inputColorTexture destFramebuffer).foldl GLState.exec g

/-- Is the command a draw call. -/
def GLCmd.isDraw : GLCmd → Bool
  | .drawArrays _ _ => true
  | _ => false

/-! ## `main_wasm.cpp`: the calls of `main_loop` -/

/-- `RenderToTextureInfo` (declared in `render.h`) as `main_loop` fills it. A
map built by assigning distinct keys to a fresh object is the list of its
entries in assignment order; of a float uniform only the name is kept. -/
structure RenderToTextureInfo where
  fragShader : String := ""
  cubemapUniforms : List (String × GLuint) := []
  textureUniforms : List (String × GLuint) := []
  floatUniforms : List String := []
  targetTexture : GLuint := 0
  width : Nat := 0
  height : Nat := 0
deriving DecidableEq, Repr

/-- The calls of `main_loop` that are recorded: asset loads and resource
creation (with the value returned), `renderToTexture`, the call of
`PostProcessPass::render` on the passthrough object, and the fallback clear. -/
inductive Call
  | loadCubemap (path : String) (ret : GLuint)
  | loadTexture2D (path : String) (ret : GLuint)
  | createColorTexture (width height : Nat) (ret : GLuint)
  | createQuadVAO (ret : GLuint)
  | renderToTexture (rtti : RenderToTextureInfo)
  | render (pass : PostProcessPass) (inputColorTexture destFramebuffer : GLuint)
  | fallbackClear
deriving DecidableEq, Repr

/-- The collaborators of one call of `main_loop`. `createColorTexture k w h` is
the name returned by the `k`-th call (from 0) of `createColorTexture` in this
call of `main_loop`, made with size `w` by `h`; `sliderInt v` is the value the
slider widget leaves in `bloomIterations` when it held `v`. -/
structure Env where
  loadCubemap : String → GLuint
  loadTexture2D : String → GLuint
  createColorTexture : Nat → Nat → Nat → GLuint
  createQuadVAO : GLuint
  shaders : ShaderDriver
  sliderInt : Int → Int

/-- The variables that outlive a call of `main_loop`: `g_state` and the
function statics `passthrough` and `bloomIterations`. -/
structure Globals where
  g_state : AppState := {}
  passthrough : Option PostProcessPass := none
  bloomIterations : Int := 4

/-- Read of a C array of handles at an `int` index. The arrays have eight
entries and the loops below index them within `0..7` for every depth up to 8;
a read outside the stored list, which the C++ leaves undefined, gives 0. -/
def readAt (a : List GLuint) (i : Int) : GLuint :=
  a.getD i.toNat 0

/-- Body of the bloom allocation loop for one `i`: both textures are created
and stored; the test of the two names that follows only prints. -/
def createBloomLevel (env : Env) (acc : AppState × List Call) (i : Nat) : AppState × List Call :=
  let d := env.createColorTexture (4 + 2 * i) (SCR_WIDTH >>> (i + 1)) (SCR_HEIGHT >>> (i + 1))
  let u := env.createColorTexture (5 + 2 * i) (SCR_WIDTH >>> i) (SCR_HEIGHT >>> i)
  ({ acc.1 with
      texDownsampled := acc.1.texDownsampled.set i d,
      texUpsampled := acc.1.texUpsampled.set i u },
   acc.2 ++ [Call.createColorTexture (SCR_WIDTH >>> (i + 1)) (SCR_HEIGHT >>> (i + 1)) d,
             Call.createColorTexture (SCR_WIDTH >>> i) (SCR_HEIGHT >>> i) u])

/-- The loop `for (int i = 0; i < 6; i++)` of the set-up branch. -/
def createBloomTextures (env : Env) (s : AppState) (calls : List Call) : AppState × List Call :=
  (List.range 6).foldl (createBloomLevel env) (s, calls)

/-- How the set-up branch of `main_loop` ends. -/
inductive SetupResult
  /-- A `return;` was executed: `main_loop` returns without a frame. -/
  | returned (g : Globals) (calls : List Call)
  /-- The branch ran to its end; `main_loop` goes on with the frame. -/
  | completed (g : Globals) (calls : List Call)
  /-- An exception left `main_loop`. -/
  | threw (msg : String)

/-- The branch `if (!g_state.initialized)` of `main_loop`. Recorded are the
asset loads and the creation calls; the probe texture at the start and the
`glGetError` checks only print and are left out. `new` does not return null,
so the test of the pointer after the construction always takes the non-null
side. -/
def setup (env : Env) (g : Globals) : SetupResult :=
  let galaxy := env.loadCubemap "assets/skybox_nebula_dark"
  let s1 := { g.g_state with galaxy := galaxy }
  let c1 := [Call.loadCubemap "assets/skybox_nebula_dark" galaxy]
  if galaxy = 0 then .returned { g with g_state := s1 } c1 else
  let colorMap := env.loadTexture2D "assets/color_map.png"
  let s2 := { s1 with colorMap := colorMap }
  let c2 := c1 ++ [Call.loadTexture2D "assets/color_map.png" colorMap]
  if colorMap = 0 then .returned { g with g_state := s2 } c2 else
  let uvChecker := env.loadTexture2D "assets/uv_checker.png"
  let s3 := { s2 with uvChecker := uvChecker }
  let c3 := c2 ++ [Call.loadTexture2D "assets/uv_checker.png" uvChecker]
  if uvChecker = 0 then .returned { g with g_state := s3 } c3 else
  let texBlackhole := env.createColorTexture 0 SCR_WIDTH SCR_HEIGHT
  let texBrightness := env.createColorTexture 1 SCR_WIDTH SCR_HEIGHT
  let texBloomFinal := env.createColorTexture 2 SCR_WIDTH SCR_HEIGHT
  let texTonemapped := env.createColorTexture 3 SCR_WIDTH SCR_HEIGHT
  let s4 := { s3 with
    texBlackhole := texBlackhole, texBrightness := texBrightness,
    texBloomFinal := texBloomFinal, texTonemapped := texTonemapped }
  let c4 := c3 ++
    [Call.createColorTexture SCR_WIDTH SCR_HEIGHT texBlackhole,
     Call.createColorTexture SCR_WIDTH SCR_HEIGHT texBrightness,
     Call.createColorTexture SCR_WIDTH SCR_HEIGHT texBloomFinal,
     Call.createColorTexture SCR_WIDTH SCR_HEIGHT texTonemapped]
  if texBlackhole = 0 ∨ texBrightness = 0 ∨ texBloomFinal = 0 ∨ texTonemapped = 0 then
    .returned { g with g_state := s4 } c4 else
  let (s5, c5) := createBloomTextures env s4 c4
  let quadVAO := env.createQuadVAO
  let s6 := { s5 with quadVAO := quadVAO }
  let c6 := c5 ++ [Call.createQuadVAO quadVAO]
  if quadVAO = 0 then .returned { g with g_state := s6 } c6 else
  match PostProcessPass.construct env.shaders "shader/passthrough.frag" with
  | .error e => .threw e
  | .ok p =>
    let passthrough : Option PostProcessPass := some p
    match passthrough with
    | none => .returned { g with g_state := s6, passthrough := passthrough } c6
    | some _ =>
      .completed { g with g_state := { s6 with initialized := true }, passthrough := passthrough } c6

/-- The main pass (`shader/blackhole_main.frag`). -/
def mainPass (s : AppState) : RenderToTextureInfo :=
  { fragShader := "shader/blackhole_main.frag",
    cubemapUniforms := [("galaxy", s.galaxy)],
    textureUniforms := [("colorMap", s.colorMap)],
    floatUniforms :=
      ["mouseX", "mouseY", "gravatationalLensing", "renderBlackHole", "mouseControl",
       "cameraRoll", "frontView", "topView", "adiskEnabled", "adiskParticle",
       "adiskDensityV", "adiskDensityH", "adiskHeight", "adiskLit", "adiskNoiseLOD",
       "adiskNoiseScale", "adiskSpeed"],
    targetTexture := s.texBlackhole,
    width := SCR_WIDTH,
    height := SCR_HEIGHT }

/-- The bloom brightness pass. -/
def brightnessPass (s : AppState) : RenderToTextureInfo :=
  { fragShader := "shader/bloom_brightness_pass.frag",
    textureUniforms := [("texture0", s.texBlackhole)],
    targetTexture := s.texBrightness,
    width := SCR_WIDTH,
    height := SCR_HEIGHT }

/-- Body of the downsampling loop for one `level`. -/
def downsamplePass (s : AppState) (level : Int) : RenderToTextureInfo :=
  { fragShader := "shader/bloom_downsample.frag",
    textureUniforms :=
      [("texture0", if level = 0 then s.texBrightness else readAt s.texDownsampled (level - 1))],
    targetTexture := readAt s.texDownsampled level,
    width := SCR_WIDTH >>> (level + 1).toNat,
    height := SCR_HEIGHT >>> (level + 1).toNat }

/-- The loop `for (int level = 0; level < bloomIterations; level++)`, entered
at `level`. -/
def downsampleLoop (s : AppState) (bloomIterations : Int) (level : Int) : List Call :=
  if level < bloomIterations then
    Call.renderToTexture (downsamplePass s level) :: downsampleLoop s bloomIterations (level + 1)
  else
    []
termination_by (bloomIterations - level).toNat
decreasing_by omega

/-- Body of the upsampling loop for one `level`. -/
def upsamplePass (s : AppState) (bloomIterations : Int) (level : Int) : RenderToTextureInfo :=
  { fragShader := "shader/bloom_upsample.frag",
    textureUniforms :=
      [("texture0", if level = bloomIterations - 1 then readAt s.texDownsampled level
                    else readAt s.texUpsampled (level + 1)),
       ("texture1", if level = 0 then s.texBrightness else readAt s.texDownsampled (level - 1))],
    targetTexture := readAt s.texUpsampled level,
    width := SCR_WIDTH >>> level.toNat,
    height := SCR_HEIGHT >>> level.toNat }

/-- The loop `for (int level = bloomIterations - 1; level >= 0; level--)`,
entered at `level`. -/
def upsampleLoop (s : AppState) (bloomIterations : Int) (level : Int) : List Call :=
  if level ≥ 0 then
    Call.renderToTexture (upsamplePass s bloomIterations level) ::
      upsampleLoop s bloomIterations (level - 1)
  else
    []
termination_by (level + 1).toNat
decreasing_by omega

/-- The bloom composite pass. -/
def compositePass (s : AppState) : RenderToTextureInfo :=
  { fragShader := "shader/bloom_composite.frag",
    textureUniforms := [("texture0", s.texBlackhole), ("texture1", readAt s.texUpsampled 0)],
    floatUniforms := ["bloomStrength"],
    targetTexture := s.texBloomFinal,
    width := SCR_WIDTH,
    height := SCR_HEIGHT }

/-- The tone mapping pass. -/
def tonemapPass (s : AppState) : RenderToTextureInfo :=
  { fragShader := "shader/tonemapping.frag",
    textureUniforms := [("texture0", s.texBloomFinal)],
    floatUniforms := ["tonemappingEnabled", "gamma"],
    targetTexture := s.texTonemapped,
    width := SCR_WIDTH,
    height := SCR_HEIGHT }

/-- The final render to screen: `passthrough->render(g_state.texTonemapped)`
with the default `destFramebuffer = 0`, or the fallback clear when the pointer
is null. -/
def presentCalls (passthrough : Option PostProcessPass) (s : AppState) : List Call :=
  match passthrough with
  | some p => [Call.render p s.texTonemapped 0]
  | none => [Call.fallbackClear]

/-- The calls of the frame part of `main_loop` for a given value of
`bloomIterations`, in source order. -/
def frameCalls (s : AppState) (passthrough : Option PostProcessPass) (bloomIterations : Int) :
    List Call :=
  [Call.renderToTexture (mainPass s), Call.renderToTexture (brightnessPass s)] ++
  downsampleLoop s bloomIterations 0 ++
  upsampleLoop s bloomIterations (bloomIterations - 1) ++
  [Call.renderToTexture (compositePass s), Call.renderToTexture (tonemapPass s)] ++
  presentCalls passthrough s

/-- The part of `main_loop` after the set-up branch: the slider updates
`bloomIterations`, then the pass chain is issued. Event polling, the UI frame
and the buffer swap are left out. -/
def frame (env : Env) (g : Globals) (calls : List Call) : Globals × List Call :=
  let bloomIterations := env.sliderInt g.bloomIterations
  ({ g with bloomIterations := bloomIterations },
   calls ++ frameCalls g.g_state g.passthrough bloomIterations)

/-- `main_loop`: the globals after the call and the calls made, or the message
of the exception that left it. -/
def main_loop (env : Env) (g : Globals) : Except String (Globals × List Call) :=
  if g.g_state.initialized = false then
    match setup env g with
    | .returned g1 calls => .ok (g1, calls)
    | .threw msg => .error msg
    | .completed g1 calls => .ok (frame env g1 calls)
  else
    .ok (frame env g [])

/-- Calls that are render passes: `renderToTexture` and
`PostProcessPass::render`. -/
def Call.isPass : Call → Bool
  | .renderToTexture _ => true
  | .render _ _ _ => true
  | _ => false

/-- Texture a call renders into, if it renders into one (`render` draws to a
framebuffer, not to a texture). -/
def Call.target : Call → Option GLuint
  | .renderToTexture rtti => some rtti.targetTexture
  | _ => none

/-- Names of the 2D textures a call takes as inputs. -/
def Call.textureInputs : Call → List GLuint
  | .renderToTexture rtti => rtti.textureUniforms.map Prod.snd
  | .render _ inputColorTexture _ => [inputColorTexture]
  | _ => []

/-- Names of the cubemaps a call takes as inputs. -/
def Call.cubemapInputs : Call → List GLuint
  | .renderToTexture rtti => rtti.cubemapUniforms.map Prod.snd
  | _ => []

/-- Runs `main_loop` once per environment of the list, threading the globals;
returns the globals and the calls after each call, or `none` when an exception
ended the program. -/
def runLoop : List Env → Globals → Option (List (Globals × List Call))
  | [], _ => some []
  | env :: envs, g =>
    match main_loop env g with
    | .error _ => none
    | .ok (g1, calls) =>
      match runLoop envs g1 with
      | none => none
      | some rest => some ((g1, calls) :: rest)

/-! ## Concrete collaborators used in the examples -/

/-- A driver for which both stages compile and linking fails with an empty
info log. -/
def silentLinkFailure : ShaderDriver :=
  { openFile := fun _ => some "#version 330 core",
    glCompileShader := fun _ t =>
      { shader := (match t with | .vertex => 1 | .fragment => 2),
        success := true, infoLogLength := 0 },
    glCreateProgram := 3,
    glLinkStatus := fun _ _ _ => false,
    glProgramInfoLogLength := fun _ => 0 }

/-- A state as a successful set-up leaves it, with pairwise distinct non-zero
names. -/
def exampleState : AppState :=
  { galaxy := 1, colorMap := 2, uvChecker := 3,
    texBlackhole := 4, texBrightness := 5,
    texDownsampled := [8, 9, 10, 11, 12, 13, 0, 0],
    texUpsampled := [14, 15, 16, 17, 18, 19, 0, 0],
    texBloomFinal := 6, texTonemapped := 7,
    quadVAO := 20, initialized := true }

/-- Collaborators for which everything succeeds except the creation of
`texDownsampled[0]` (the colour texture call number 4), which returns 0. The
slider leaves `bloomIterations` as it is. -/
def bloomFailureEnv : Env :=
  { loadCubemap := fun _ => 1,
    loadTexture2D := fun path => if path = "assets/color_map.png" then 2 else 3,
    createColorTexture := fun k _ _ => if k = 4 then 0 else k + 4,
    createQuadVAO := 20,
    shaders := { silentLinkFailure with glLinkStatus := fun _ _ _ => true },
    sliderInt := fun v => v }

/-- The globals that the set-up branch leaves with `bloomFailureEnv`:
`initialized` is true although `texDownsampled[0]` is 0. -/
def bloomFailureGlobals : Globals :=
  { g_state :=
      { galaxy := 1, colorMap := 2, uvChecker := 3,
        texBlackhole := 4, texBrightness := 5, texBloomFinal := 6, texTonemapped := 7,
        texDownsampled := [0, 10, 12, 14, 16, 18, 0, 0],
        texUpsampled := [9, 11, 13, 15, 17, 19, 0, 0],
        quadVAO := 20, initialized := true },
    passthrough := some { program := 3 },
    bloomIterations := 4 }

/-- Collaborators for which every step of the set-up succeeds; the `k`-th
colour texture gets the name `k + 4` and the program the name 3. -/
def workingEnv : Env :=
  { bloomFailureEnv with createColorTexture := fun k _ _ => k + 4 }

/-- The globals that the set-up branch leaves with `workingEnv`. -/
def workingGlobals : Globals :=
  { g_state :=
      { galaxy := 1, colorMap := 2, uvChecker := 3,
        texBlackhole := 4, texBrightness := 5, texBloomFinal := 6, texTonemapped := 7,
        texDownsampled := [8, 10, 12, 14, 16, 18, 0, 0],
        texUpsampled := [9, 11, 13, 15, 17, 19, 0, 0],
        quadVAO := 20, initialized := true },
    passthrough := some { program := 3 },
    bloomIterations := 4 }

/-- Collaborators for which the colour map fails to load. -/
def colorMapFailureEnv : Env :=
  { bloomFailureEnv with loadTexture2D := fun path => if path = "assets/color_map.png" then 0 else 3 }

/-- An asset load of the set-up branch fails: the cubemap, the colour map or
the UV checker comes back as 0. -/
def AssetLoadFails (env : Env) : Prop :=
  env.loadCubemap "assets/skybox_nebula_dark" = 0 ∨
  env.loadTexture2D "assets/color_map.png" = 0 ∨
  env.loadTexture2D "assets/uv_checker.png" = 0

/-- The texture `t` is the target of a call issued before position `k` of
`calls`. -/
def WrittenBefore (calls : List Call) (k : Nat) (t : GLuint) : Prop :=
  ∃ j c, j < k ∧ calls[j]? = some c ∧ c.target = some t

/-- The names created by the set-up branch, in the order: the three assets,
the four full-size render textures, `texDownsampled[0..5]`,
`texUpsampled[0..5]`. -/
def setupHandles (s : AppState) : List GLuint :=
  [s.galaxy, s.colorMap, s.uvChecker, s.texBlackhole, s.texBrightness, s.texBloomFinal,
   s.texTonemapped] ++
  (List.range 6).map (fun i => s.texDownsampled.getD i 0) ++
  (List.range 6).map (fun i => s.texUpsampled.getD i 0)

/-- Size `(width, height)` a call renders at, for a `renderToTexture` call. -/
def Call.viewport : Call → Option (Nat × Nat)
  | .renderToTexture rtti => some (rtti.width, rtti.height)
  | _ => none

/-- Positions in `setupHandles` of the targets of the frame's calls, in call
order: `texBlackhole`, `texBrightness`, `texDownsampled[0..L-1]`,
`texUpsampled[L-1..0]`, `texBloomFinal`, `texTonemapped`. -/
def targetIndices (L : Nat) : List Nat :=
  [3, 4] ++ (List.range L).map (fun i => 7 + i) ++
  (List.range L).map (fun k => 13 + (L - 1 - k)) ++ [5, 6]

/-! ## The two loops of the bloom pyramid -/

theorem downsampleLoop_eq_map (s : AppState) (L : Int) (n : Nat) :
    ∀ level : Int, L - level = n →
      downsampleLoop s L level =
        (List.range n).map (fun (k : Nat) => Call.renderToTexture (downsamplePass s (level + (k : Int)))) := by
  induction n with
  | zero =>
    intro level h
    rw [downsampleLoop]
    have : ¬ level < L := by omega
    simp [this]
  | succ n ih =>
    intro level h
    rw [downsampleLoop]
    have hlt : level < L := by omega
    rw [if_pos hlt, ih (level + 1) (by omega), List.range_succ_eq_map]
    simp only [List.map_cons, List.map_map, Nat.cast_zero, add_zero]
    congr 1
    apply List.map_congr_left
    intro k _
    simp only [Function.comp, Nat.cast_succ]
    congr 2
    omega

theorem upsampleLoop_eq_map (s : AppState) (L : Int) (n : Nat) :
    ∀ level : Int, level + 1 = n →
      upsampleLoop s L level =
        (List.range n).map (fun (k : Nat) => Call.renderToTexture (upsamplePass s L (level - (k : Int)))) := by
  induction n with
  | zero =>
    intro level h
    rw [upsampleLoop]
    have : ¬ level ≥ 0 := by omega
    simp [this]
  | succ n ih =>
    intro level h
    rw [upsampleLoop]
    have hge : level ≥ 0 := by omega
    rw [if_pos hge, ih (level - 1) (by omega), List.range_succ_eq_map]
    simp only [List.map_cons, List.map_map, Nat.cast_zero, sub_zero]
    congr 1
    apply List.map_congr_left
    intro k _
    simp only [Function.comp, Nat.cast_succ]
    congr 2
    omega

theorem downsampleLoop_length (s : AppState) (L : Int) (h : 0 ≤ L) :
    (downsampleLoop s L 0).length = L.toNat := by
  rw [downsampleLoop_eq_map s L L.toNat 0 (by omega)]
  simp

theorem upsampleLoop_length (s : AppState) (L : Int) (h : 0 ≤ L) :
    (upsampleLoop s L (L - 1)).length = L.toNat := by
  rw [upsampleLoop_eq_map s L L.toNat (L - 1) (by omega)]
  simp

theorem downsampleLoop_getElem? (s : AppState) (L : Int) (h : 0 ≤ L) (i : Nat) (hi : i < L.toNat) :
    (downsampleLoop s L 0)[i]? = some (Call.renderToTexture (downsamplePass s i)) := by
  rw [downsampleLoop_eq_map s L L.toNat 0 (by omega)]
  simp [List.getElem?_map, List.getElem?_range hi]

theorem upsampleLoop_getElem? (s : AppState) (L : Int) (h : 0 ≤ L) (k : Nat) (hk : k < L.toNat) :
    (upsampleLoop s L (L - 1))[k]? =
      some (Call.renderToTexture (upsamplePass s L (L - 1 - (k : Int)))) := by
  rw [upsampleLoop_eq_map s L L.toNat (L - 1) (by omega)]
  simp [List.getElem?_map, List.getElem?_range hk]

theorem downsamplePass_natCast (s : AppState) (i : Nat) :
    downsamplePass s (i : Int) =
      { fragShader := "shader/bloom_downsample.frag",
        textureUniforms :=
          [("texture0", if i = 0 then s.texBrightness else s.texDownsampled.getD (i - 1) 0)],
        targetTexture := s.texDownsampled.getD i 0,
        width := SCR_WIDTH >>> (i + 1),
        height := SCR_HEIGHT >>> (i + 1) } := by
  have h1 : ((i : Int) + 1).toNat = i + 1 := by omega
  have h2 : ((i : Int) - 1).toNat = i - 1 := by omega
  simp [downsamplePass, readAt, h1, h2]

theorem upsamplePass_natCast (s : AppState) (L : Int) (i : Nat) :
    upsamplePass s L (i : Int) =
      { fragShader := "shader/bloom_upsample.frag",
        textureUniforms :=
          [("texture0", if i = L.toNat - 1 ∧ 1 ≤ L then s.texDownsampled.getD i 0
                        else s.texUpsampled.getD (i + 1) 0),
           ("texture1", if i = 0 then s.texBrightness else s.texDownsampled.getD (i - 1) 0)],
        targetTexture := s.texUpsampled.getD i 0,
        width := SCR_WIDTH >>> i,
        height := SCR_HEIGHT >>> i } := by
  have h1 : ((i : Int) + 1).toNat = i + 1 := by omega
  have h2 : ((i : Int) - 1).toNat = i - 1 := by omega
  have h3 : ((i : Int) = L - 1) ↔ (i = L.toNat - 1 ∧ 1 ≤ L) := by omega
  simp [upsamplePass, readAt, h1, h2, h3]

/-! ## Claims about the bloom sweeps -/

/-- C1. Downsample sweep: for a bloom depth `L` with `1 ≤ L ≤ 6` the
downsampling loop of `main_loop` issues exactly `L` `renderToTexture` calls, and
the `i`-th of them (level `i`, ascending from 0) has fragment shader
`bloom_downsample`, target `texDownsampled[i]`, size
`(SCR_WIDTH >> (i+1), SCR_HEIGHT >> (i+1))` and the single texture input
`texture0`, which is `texBrightness` for `i = 0` and `texDownsampled[i-1]`
otherwise. -/
theorem downsample_sweep (s : AppState) (L : Int) (h1 : 1 ≤ L) (_h6 : L ≤ 6) :
    (downsampleLoop s L 0).length = L.toNat ∧
    ∀ i : Nat, i < L.toNat →
      (downsampleLoop s L 0)[i]? = some (Call.renderToTexture
        { fragShader := "shader/bloom_downsample.frag",
          cubemapUniforms := [],
          textureUniforms :=
            [("texture0", if i = 0 then s.texBrightness else s.texDownsampled.getD (i - 1) 0)],
          floatUniforms := [],
          targetTexture := s.texDownsampled.getD i 0,
          width := SCR_WIDTH >>> (i + 1),
          height := SCR_HEIGHT >>> (i + 1) }) := by
  refine ⟨downsampleLoop_length s L (by omega), ?_⟩
  intro i hi
  rw [downsampleLoop_getElem? s L (by omega) i hi, downsamplePass_natCast]

theorem downsample_sweep_witness :
    (1 : Int) ≤ 3 ∧ (3 : Int) ≤ 6 ∧
    (downsampleLoop exampleState 3 0)[2]? = some (Call.renderToTexture
        { fragShader := "shader/bloom_downsample.frag",
          cubemapUniforms := [],
          textureUniforms := [("texture0", 9)],
          floatUniforms := [],
          targetTexture := 10,
          width := 128,
          height := 96 }) :=
  ⟨by decide, by decide, (downsample_sweep exampleState 3 (by decide) (by decide)).2 2 (by decide)⟩

/-- C2. Upsample sweep: for a bloom depth `L` with `1 ≤ L ≤ 6` the upsampling
loop of `main_loop` issues exactly `L` `renderToTexture` calls; the `k`-th of
them is the pass of level `i = L-1-k` (so the levels run `L-1, ..., 0`,
strictly descending), with target `texUpsampled[i]`, size
`(SCR_WIDTH >> i, SCR_HEIGHT >> i)`, `texture0 = texDownsampled[i]` when
`i = L-1` and `texUpsampled[i+1]` otherwise, and `texture1 = texBrightness`
when `i = 0` and `texDownsampled[i-1]` otherwise. Both inputs are present in
every pass; for `L = 1` the only pass reads `texDownsampled[0]` and
`texBrightness`. -/
theorem upsample_sweep (s : AppState) (L : Int) (h1 : 1 ≤ L) (_h6 : L ≤ 6) :
    (upsampleLoop s L (L - 1)).length = L.toNat ∧
    (∀ i : Nat, i < L.toNat →
      (upsampleLoop s L (L - 1))[L.toNat - 1 - i]? = some (Call.renderToTexture
        { fragShader := "shader/bloom_upsample.frag",
          cubemapUniforms := [],
          textureUniforms :=
            [("texture0", if i = L.toNat - 1 then s.texDownsampled.getD i 0
                          else s.texUpsampled.getD (i + 1) 0),
             ("texture1", if i = 0 then s.texBrightness
                          else s.texDownsampled.getD (i - 1) 0)],
          floatUniforms := [],
          targetTexture := s.texUpsampled.getD i 0,
          width := SCR_WIDTH >>> i,
          height := SCR_HEIGHT >>> i })) ∧
    (L = 1 →
      upsampleLoop s L (L - 1) = [Call.renderToTexture
        { fragShader := "shader/bloom_upsample.frag",
          cubemapUniforms := [],
          textureUniforms :=
            [("texture0", s.texDownsampled.getD 0 0), ("texture1", s.texBrightness)],
          floatUniforms := [],
          targetTexture := s.texUpsampled.getD 0 0,
          width := SCR_WIDTH,
          height := SCR_HEIGHT }]) := by
  have hk : ∀ i : Nat, i < L.toNat →
      (upsampleLoop s L (L - 1))[L.toNat - 1 - i]? = some (Call.renderToTexture
        { fragShader := "shader/bloom_upsample.frag",
          cubemapUniforms := [],
          textureUniforms :=
            [("texture0", if i = L.toNat - 1 then s.texDownsampled.getD i 0
                          else s.texUpsampled.getD (i + 1) 0),
             ("texture1", if i = 0 then s.texBrightness
                          else s.texDownsampled.getD (i - 1) 0)],
          floatUniforms := [],
          targetTexture := s.texUpsampled.getD i 0,
          width := SCR_WIDTH >>> i,
          height := SCR_HEIGHT >>> i }) := by
    intro i hi
    have hcast : L - 1 - ((L.toNat - 1 - i : Nat) : Int) = (i : Int) := by omega
    rw [upsampleLoop_getElem? s L (by omega) (L.toNat - 1 - i) (by omega), hcast,
      upsamplePass_natCast]
    simp [h1]
  refine ⟨upsampleLoop_length s L (by omega), hk, ?_⟩
  intro hL
  subst hL
  have hlen := upsampleLoop_length s 1 (by omega)
  have h0 := hk 0 (by decide)
  match hm : upsampleLoop s 1 (1 - 1), hlen, h0 with
  | [c], _, h0 =>
    simp at h0
    simp [h0, SCR_WIDTH, SCR_HEIGHT]

theorem upsample_sweep_witness :
    (1 : Int) ≤ 1 ∧ (1 : Int) ≤ 6 ∧
    upsampleLoop exampleState 1 (1 - 1) = [Call.renderToTexture
        { fragShader := "shader/bloom_upsample.frag",
          cubemapUniforms := [],
          textureUniforms := [("texture0", 8), ("texture1", 5)],
          floatUniforms := [],
          targetTexture := 14,
          width := 1024,
          height := 768 }] :=
  ⟨by decide, by decide, (upsample_sweep exampleState 1 (by decide) (by decide)).2.2 rfl⟩

/-! ## Shader program creation -/

/-- When both stages compile and the link status is false, the outcome of
`createShaderProgram` is decided by the length of the info log alone: it
throws exactly when the log is not empty. -/
theorem createShaderProgram_of_link_failure (d : ShaderDriver) (vFile fFile vs fs : String)
    (v f : GLuint)
    (hvs : readFile d vFile = .ok vs) (hv : compileShader d vs .vertex = .ok v)
    (hfs : readFile d fFile = .ok fs) (hf : compileShader d fs .fragment = .ok f)
    (hlink : d.glLinkStatus d.glCreateProgram v f = false) :
    createShaderProgram d vFile fFile =
      if d.glProgramInfoLogLength d.glCreateProgram > 0 then
        .error "Failed to link the shader."
      else .ok d.glCreateProgram := by
  simp [createShaderProgram, hvs, hv, hfs, hf, hlink]

/-- C9, evaluated at the failing input. With the driver `silentLinkFailure`
both stages compile (shader names 1 and 2), the link status of program 3 is
false and its info log has length 0; `createShaderProgram` does not throw and
returns the unlinked program 3 to the caller. -/
theorem createShaderProgram_returns_unlinked_program :
    (∀ src, compileShader silentLinkFailure src .vertex = .ok 1) ∧
    (∀ src, compileShader silentLinkFailure src .fragment = .ok 2) ∧
    silentLinkFailure.glLinkStatus silentLinkFailure.glCreateProgram 1 2 = false ∧
    silentLinkFailure.glProgramInfoLogLength silentLinkFailure.glCreateProgram = 0 ∧
    createShaderProgram silentLinkFailure "shader/simple.vert" "shader/passthrough.frag" =
      .ok 3 := by
  refine ⟨fun _ => rfl, fun _ => rfl, rfl, rfl, ?_⟩
  simp [createShaderProgram, readFile, compileShader, silentLinkFailure]

/-! ## `PostProcessPass::render` -/

/-- C10. A pass with a zero program is a no-op: `render` then leaves the
graphics state as it was, in particular it issues no command and executes no
draw. With a non-zero program it issues the eleven commands of its body, of
which exactly one is a draw, and that draw goes to `destFramebuffer` with
`inputColorTexture` bound to unit 0. -/
theorem render_zero_program_is_noop (p : PostProcessPass) (inputColorTexture destFramebuffer : GLuint)
    (g : GLState) :
    (p.program = 0 →
      p.render inputColorTexture destFramebuffer g = g ∧
      (p.render inputColorTexture destFramebuffer g).issued = g.issued ∧
      (p.render inputColorTexture destFramebuffer g).draws = g.draws) ∧
    (p.program ≠ 0 →
      (p.render inputColorTexture destFramebuffer g).issued =
        g.issued ++ p.renderCommands inputColorTexture destFramebuffer ∧
      ((p.renderCommands inputColorTexture destFramebuffer).filter GLCmd.isDraw).length = 1 ∧
      (p.render inputColorTexture destFramebuffer g).draws =
        g.draws ++ [{ program := p.program, framebuffer := destFramebuffer,
                      texture0 := inputColorTexture }]) := by
  constructor
  · intro h
    simp [PostProcessPass.render, h]
  · intro h
    simp [PostProcessPass.render, h, PostProcessPass.renderCommands, GLState.exec, GLCmd.isDraw]

theorem render_zero_program_is_noop_witness :
    (PostProcessPass.render { program := 0 } 7 0 {}).issued = [] ∧
    (PostProcessPass.render { program := 0 } 7 0 {}).draws = [] ∧
    (PostProcessPass.render { program := 21 } 7 0 {}).draws =
      [{ program := 21, framebuffer := 0, texture0 := 7 }] :=
  ⟨((render_zero_program_is_noop { program := 0 } 7 0 {}).1 rfl).2.1,
   ((render_zero_program_is_noop { program := 0 } 7 0 {}).1 rfl).2.2,
   ((render_zero_program_is_noop { program := 21 } 7 0 {}).2 (by decide)).2.2⟩

/-! ## The frame -/

/-- The frame's calls with both loops written as maps over the levels. -/
theorem frameCalls_eq (s : AppState) (passthrough : Option PostProcessPass) (L : Int)
    (h : 0 ≤ L) :
    frameCalls s passthrough L =
      [Call.renderToTexture (mainPass s), Call.renderToTexture (brightnessPass s)] ++
      (List.range L.toNat).map (fun (i : Nat) => Call.renderToTexture (downsamplePass s i)) ++
      (List.range L.toNat).map
        (fun (k : Nat) => Call.renderToTexture (upsamplePass s L (L - 1 - (k : Int)))) ++
      [Call.renderToTexture (compositePass s), Call.renderToTexture (tonemapPass s)] ++
      presentCalls passthrough s := by
  rw [frameCalls, downsampleLoop_eq_map s L L.toNat 0 (by omega),
    upsampleLoop_eq_map s L L.toNat (L - 1) (by omega)]
  simp

theorem main_loop_of_initialized (env : Env) (g : Globals) (h : g.g_state.initialized = true) :
    main_loop env g =
      .ok ({ g with bloomIterations := env.sliderInt g.bloomIterations },
           frameCalls g.g_state g.passthrough (env.sliderInt g.bloomIterations)) := by
  simp [main_loop, h, frame]

/-- The frame's calls for each depth from 1 to 6, level by level. -/
theorem frameCalls_layout (s : AppState) (p : PostProcessPass) (L : Int)
    (h1 : 1 ≤ L) (h6 : L ≤ 6) :
    (frameCalls s (some p) L).length = 2 * L.toNat + 5 ∧
    (frameCalls s (some p) L)[0]? = some (Call.renderToTexture (mainPass s)) ∧
    (frameCalls s (some p) L)[1]? = some (Call.renderToTexture (brightnessPass s)) ∧
    (∀ i : Nat, i < L.toNat →
      (frameCalls s (some p) L)[2 + i]? = some (Call.renderToTexture (downsamplePass s i))) ∧
    (∀ i : Nat, i < L.toNat →
      (frameCalls s (some p) L)[2 + L.toNat + (L.toNat - 1 - i)]? =
        some (Call.renderToTexture (upsamplePass s L i))) ∧
    (frameCalls s (some p) L)[2 * L.toNat + 2]? = some (Call.renderToTexture (compositePass s)) ∧
    (frameCalls s (some p) L)[2 * L.toNat + 3]? = some (Call.renderToTexture (tonemapPass s)) ∧
    (frameCalls s (some p) L)[2 * L.toNat + 4]? = some (Call.render p s.texTonemapped 0) := by
  rw [frameCalls_eq s (some p) L (by omega)]
  interval_cases L
  all_goals
    refine ⟨by simp [presentCalls, List.range_succ], by simp, by simp, ?_, ?_,
      by simp [presentCalls, List.range_succ], by simp [presentCalls, List.range_succ],
      by simp [presentCalls, List.range_succ]⟩
  all_goals
    intro i hi
    have hi6 : i < 6 := by simp at hi; omega
    interval_cases i <;> first
      | (exfalso; simp at hi; done)
      | simp [presentCalls, List.range_succ]

/-- The bloom allocation loop with its six iterations written out. -/
theorem createBloomTextures_eq (env : Env) (s : AppState) (calls : List Call) :
    createBloomTextures env s calls =
      createBloomLevel env (createBloomLevel env (createBloomLevel env (createBloomLevel env
        (createBloomLevel env (createBloomLevel env (s, calls) 0) 1) 2) 3) 4) 5 := by
  simp [createBloomTextures, List.range_succ]

theorem createBloomTextures_initialized (env : Env) (s : AppState) (calls : List Call) :
    (createBloomTextures env s calls).1.initialized = s.initialized := by
  simp [createBloomTextures_eq, createBloomLevel]

theorem createBloomLevel_no_pass (env : Env) (acc : AppState × List Call) (i : Nat)
    (h : ∀ c ∈ acc.2, c.isPass = false) :
    ∀ c ∈ (createBloomLevel env acc i).2, c.isPass = false := by
  intro c hc
  simp only [createBloomLevel, List.mem_append, List.mem_cons, List.mem_singleton,
    List.not_mem_nil, or_false] at hc
  rcases hc with hc | hc | hc
  · exact h c hc
  · rw [hc]; rfl
  · rw [hc]; rfl

theorem foldl_createBloomLevel_no_pass (env : Env) (l : List Nat) :
    ∀ acc : AppState × List Call, (∀ c ∈ acc.2, c.isPass = false) →
      ∀ c ∈ (l.foldl (createBloomLevel env) acc).2, c.isPass = false := by
  induction l with
  | nil => intro acc h; simpa using h
  | cons i l ih =>
    intro acc h
    rw [List.foldl_cons]
    exact ih _ (createBloomLevel_no_pass env acc i h)

theorem createBloomTextures_no_pass (env : Env) (s : AppState) (calls : List Call)
    (h : ∀ c ∈ calls, c.isPass = false) :
    ∀ c ∈ (createBloomTextures env s calls).2, c.isPass = false :=
  foldl_createBloomLevel_no_pass env (List.range 6) (s, calls) h

/-- What the set-up branch guarantees about `initialized`, `passthrough` and
the calls it makes, for each way it can end. -/
theorem setup_spec (env : Env) (g : Globals) (h : g.g_state.initialized = false) :
    match setup env g with
    | .returned g1 calls =>
        g1.g_state.initialized = false ∧ g1.passthrough = g.passthrough ∧
        ∀ c ∈ calls, c.isPass = false
    | .completed g1 calls =>
        g1.g_state.initialized = true ∧ g1.passthrough.isSome = true ∧
        ∀ c ∈ calls, c.isPass = false
    | .threw _ => True := by
  unfold setup
  simp only []
  split_ifs
  · simp [h, Call.isPass]
  · simp [h, Call.isPass]
  · simp [h, Call.isPass]
  · simp [h, Call.isPass]
  · simp [h, Call.isPass, createBloomTextures_initialized]
    intro c hc
    rcases hc with hc | rfl
    · refine createBloomTextures_no_pass env _ _ ?_ c hc
      simp [Call.isPass]
    · rfl
  · cases hc : PostProcessPass.construct env.shaders "shader/passthrough.frag" with
    | error e => simp
    | ok p =>
      simp [h, Call.isPass, createBloomTextures_initialized]
      intro c hc
      rcases hc with hc | rfl
      · refine createBloomTextures_no_pass env _ _ ?_ c hc
        simp [Call.isPass]
      · rfl

/-! ## Set-up failures -/

theorem setup_of_asset_failure (env : Env) (g : Globals) (hfail : AssetLoadFails env) :
    ∃ g1 calls, setup env g = .returned g1 calls := by
  unfold setup
  simp only []
  unfold AssetLoadFails at hfail
  split_ifs with h1 h2 h3
  · exact ⟨_, _, rfl⟩
  · exact ⟨_, _, rfl⟩
  · exact ⟨_, _, rfl⟩
  all_goals (exfalso; rcases hfail with h | h | h <;> contradiction)

theorem main_loop_of_asset_failure (env : Env) (g : Globals)
    (hinit : g.g_state.initialized = false) (hfail : AssetLoadFails env) :
    ∃ g1 calls, main_loop env g = .ok (g1, calls) ∧
      g1.g_state.initialized = false ∧ g1.passthrough = g.passthrough ∧
      ∀ c ∈ calls, c.isPass = false := by
  obtain ⟨g1, calls, hs⟩ := setup_of_asset_failure env g hfail
  have hspec := setup_spec env g hinit
  rw [hs] at hspec
  refine ⟨g1, calls, ?_, hspec.1, hspec.2.1, hspec.2.2⟩
  simp [main_loop, hinit, hs]

theorem runLoop_of_asset_failure (envs : List Env) :
    ∀ g : Globals, g.g_state.initialized = false → (∀ e ∈ envs, AssetLoadFails e) →
      ∃ results, runLoop envs g = some results ∧ results.length = envs.length ∧
        ∀ r ∈ results, r.1.g_state.initialized = false ∧ ∀ c ∈ r.2, c.isPass = false := by
  induction envs with
  | nil => intro g _ _; exact ⟨[], rfl, rfl, by simp⟩
  | cons e envs ih =>
    intro g hinit hall
    obtain ⟨g1, calls, hm, hi1, _, hc1⟩ :=
      main_loop_of_asset_failure e g hinit (hall e (List.mem_cons_self _ _))
    obtain ⟨rest, hr, hlen, hrest⟩ := ih g1 hi1 (fun e1 he1 => hall e1 (List.mem_cons_of_mem _ he1))
    refine ⟨(g1, calls) :: rest, ?_, by simp [hlen], ?_⟩
    · simp [runLoop, hm, hr]
    · intro r hr
      rcases List.mem_cons.1 hr with rfl | hr
      · exact ⟨hi1, hc1⟩
      · exact hrest r hr

/-- C8. Asset-load failure blocks the pipeline. A call of `main_loop` that
starts with `initialized == false` and in which `loadCubemap` or one of the
two `loadTexture2D` calls returns 0 returns with `initialized` still false and
without a render pass (no `renderToTexture` call, no `PostProcessPass::render`
call). Hence along any sequence of calls in each of which a load fails, every
call returns, `initialized` is false after each of them and no call of the
sequence issues a pass. -/
theorem asset_load_failure_blocks_pipeline (env : Env) (envs : List Env) (g : Globals)
    (hinit : g.g_state.initialized = false) (hfail : AssetLoadFails env)
    (hall : ∀ e ∈ envs, AssetLoadFails e) :
    (∃ g1 calls, main_loop env g = .ok (g1, calls) ∧
      g1.g_state.initialized = false ∧ ∀ c ∈ calls, c.isPass = false) ∧
    (∃ results, runLoop envs g = some results ∧ results.length = envs.length ∧
      ∀ r ∈ results, r.1.g_state.initialized = false ∧ ∀ c ∈ r.2, c.isPass = false) := by
  obtain ⟨g1, calls, h1, h2, _, h3⟩ := main_loop_of_asset_failure env g hinit hfail
  exact ⟨⟨g1, calls, h1, h2, h3⟩, runLoop_of_asset_failure envs g hinit hall⟩

theorem asset_load_failure_blocks_pipeline_witness :
    ({} : Globals).g_state.initialized = false ∧ AssetLoadFails colorMapFailureEnv ∧
    (∃ g1 calls, main_loop colorMapFailureEnv {} = .ok (g1, calls) ∧
      g1.g_state.initialized = false ∧ ∀ c ∈ calls, c.isPass = false) ∧
    (∃ results,
      runLoop [colorMapFailureEnv, colorMapFailureEnv, colorMapFailureEnv] {} = some results ∧
      results.length = [colorMapFailureEnv, colorMapFailureEnv, colorMapFailureEnv].length ∧
      ∀ r ∈ results, r.1.g_state.initialized = false ∧ ∀ c ∈ r.2, c.isPass = false) :=
  have hfail : AssetLoadFails colorMapFailureEnv := Or.inr (Or.inl rfl)
  ⟨rfl, hfail,
    asset_load_failure_blocks_pipeline colorMapFailureEnv
      [colorMapFailureEnv, colorMapFailureEnv, colorMapFailureEnv] {} rfl hfail
      (fun e he => by
        simp only [List.mem_cons, List.mem_singleton, List.not_mem_nil, or_false, or_self] at he
        rw [he]; exact hfail)⟩

/-! ## Frame pass order -/

/-- Once `initialized` is true the passthrough pointer is set: the property
holds of the initial globals and every call of `main_loop` keeps it. -/
theorem main_loop_keeps_passthrough (env : Env) (g g1 : Globals) (calls : List Call)
    (hinv : g.g_state.initialized = true → g.passthrough.isSome = true)
    (hrun : main_loop env g = .ok (g1, calls)) :
    g1.g_state.initialized = true → g1.passthrough.isSome = true := by
  by_cases hinit : g.g_state.initialized = true
  · rw [main_loop_of_initialized env g hinit] at hrun
    simp only [Except.ok.injEq, Prod.mk.injEq] at hrun
    rw [← hrun.1]
    exact fun _ => hinv hinit
  · have hinit : g.g_state.initialized = false := by simpa using hinit
    have hspec := setup_spec env g hinit
    unfold main_loop at hrun
    rw [if_pos hinit] at hrun
    cases hs : setup env g with
    | returned g2 c2 =>
      rw [hs] at hrun hspec
      simp only [Except.ok.injEq, Prod.mk.injEq] at hrun
      rw [← hrun.1]
      intro h
      rw [hspec.1] at h
      exact absurd h (by decide)
    | completed g2 c2 =>
      rw [hs] at hrun hspec
      simp only [frame, Except.ok.injEq, Prod.mk.injEq] at hrun
      rw [← hrun.1]
      exact fun _ => hspec.2.1
    | threw msg =>
      rw [hs] at hrun
      simp at hrun

/-- C7, evaluated at the failing input. With `bloomFailureEnv` the creation of
`texDownsampled[0]` returns 0 during set-up. The call of `main_loop` on the
initial globals nevertheless completes the set-up: it returns with
`initialized` true and `texDownsampled[0] = 0`, and in the same call issues
the 13 passes of a frame at the default depth 4, the first downsample pass
rendering into texture 0. -/
theorem bloom_allocation_failure_completes_setup :
    bloomFailureEnv.createColorTexture 4 (SCR_WIDTH >>> 1) (SCR_HEIGHT >>> 1) = 0 ∧
    ∃ calls, main_loop bloomFailureEnv {} = .ok (bloomFailureGlobals, calls) ∧
      bloomFailureGlobals.g_state.initialized = true ∧
      bloomFailureGlobals.g_state.texDownsampled.getD 0 0 = 0 ∧
      Call.createColorTexture 512 384 0 ∈ calls ∧
      (calls.filter Call.isPass).length = 13 ∧
      Call.renderToTexture
        { fragShader := "shader/bloom_downsample.frag",
          textureUniforms := [("texture0", 5)],
          targetTexture := 0, width := 512, height := 384 } ∈ calls := by
  refine ⟨rfl, ?_⟩
  have hs : ∃ C, setup bloomFailureEnv {} = .completed bloomFailureGlobals C ∧
      (C.filter Call.isPass = []) ∧ Call.createColorTexture 512 384 0 ∈ C :=
    ⟨_, rfl, by decide, by decide⟩
  obtain ⟨C, hC, hfilter, hmem⟩ := hs
  refine ⟨C ++ frameCalls bloomFailureGlobals.g_state bloomFailureGlobals.passthrough 4,
    ?_, rfl, rfl, List.mem_append_left _ hmem, ?_, ?_⟩
  · simp only [main_loop, hC, frame]
    rfl
  · rw [List.filter_append, hfilter, frameCalls_eq _ _ 4 (by decide)]
    simp [List.range_succ, Call.isPass, presentCalls, bloomFailureGlobals]
  · apply List.mem_append_right
    rw [frameCalls_eq _ _ 4 (by decide)]
    simp [List.range_succ, presentCalls, bloomFailureGlobals, downsamplePass, readAt,
      SCR_WIDTH, SCR_HEIGHT]

/-! ## Data flow within a frame -/

/-- Every position of the frame's call list is one of the seven kinds of
call, at the position the layout gives it. -/
theorem frame_call_cases (s : AppState) (p : PostProcessPass) (L : Int)
    (h1 : 1 ≤ L) (h6 : L ≤ 6) (k : Nat) (c : Call)
    (hk : (frameCalls s (some p) L)[k]? = some c) :
    (k = 0 ∧ c = Call.renderToTexture (mainPass s)) ∨
    (k = 1 ∧ c = Call.renderToTexture (brightnessPass s)) ∨
    (∃ i : Nat, i < L.toNat ∧ k = 2 + i ∧ c = Call.renderToTexture (downsamplePass s i)) ∨
    (∃ i : Nat, i < L.toNat ∧ k = 2 + L.toNat + (L.toNat - 1 - i) ∧
      c = Call.renderToTexture (upsamplePass s L i)) ∨
    (k = 2 * L.toNat + 2 ∧ c = Call.renderToTexture (compositePass s)) ∨
    (k = 2 * L.toNat + 3 ∧ c = Call.renderToTexture (tonemapPass s)) ∨
    (k = 2 * L.toNat + 4 ∧ c = Call.render p s.texTonemapped 0) := by
  obtain ⟨hlen, h0, hb, hd, hu, hc, ht, hpr⟩ := frameCalls_layout s p L h1 h6
  have hklt : k < 2 * L.toNat + 5 := by
    rw [← hlen]
    by_contra hge
    rw [List.getElem?_eq_none (by omega)] at hk
    exact absurd hk (by simp)
  have hcases : k = 0 ∨ k = 1 ∨ (∃ i : Nat, i < L.toNat ∧ k = 2 + i) ∨
      (∃ i : Nat, i < L.toNat ∧ k = 2 + L.toNat + (L.toNat - 1 - i)) ∨
      k = 2 * L.toNat + 2 ∨ k = 2 * L.toNat + 3 ∨ k = 2 * L.toNat + 4 := by
    by_cases a : k = 0
    · exact Or.inl a
    by_cases b : k = 1
    · exact Or.inr (Or.inl b)
    by_cases d : k < 2 + L.toNat
    · exact Or.inr (Or.inr (Or.inl ⟨k - 2, by omega, by omega⟩))
    by_cases u : k < 2 + L.toNat + L.toNat
    · exact Or.inr (Or.inr (Or.inr (Or.inl ⟨L.toNat - 1 - (k - 2 - L.toNat), by omega, by omega⟩)))
    omega
  rcases hcases with rfl | rfl | ⟨i, hi, rfl⟩ | ⟨i, hi, rfl⟩ | rfl | rfl | rfl
  · rw [h0] at hk; exact Or.inl ⟨rfl, (Option.some.inj hk).symm⟩
  · rw [hb] at hk; exact Or.inr (Or.inl ⟨rfl, (Option.some.inj hk).symm⟩)
  · rw [hd i hi] at hk
    exact Or.inr (Or.inr (Or.inl ⟨i, hi, rfl, (Option.some.inj hk).symm⟩))
  · rw [hu i hi] at hk
    exact Or.inr (Or.inr (Or.inr (Or.inl ⟨i, hi, rfl, (Option.some.inj hk).symm⟩)))
  · rw [hc] at hk
    exact Or.inr (Or.inr (Or.inr (Or.inr (Or.inl ⟨rfl, (Option.some.inj hk).symm⟩))))
  · rw [ht] at hk
    exact Or.inr (Or.inr (Or.inr (Or.inr (Or.inr (Or.inl ⟨rfl, (Option.some.inj hk).symm⟩)))))
  · rw [hpr] at hk
    exact Or.inr (Or.inr (Or.inr (Or.inr (Or.inr (Or.inr ⟨rfl, (Option.some.inj hk).symm⟩)))))

/-- Forward data flow in the frame's call list, for the state `s`. -/
theorem frameCalls_forward (s : AppState) (p : PostProcessPass) (L : Int)
    (h1 : 1 ≤ L) (h6 : L ≤ 6) (k : Nat) (c : Call)
    (hk : (frameCalls s (some p) L)[k]? = some c) :
    (∀ t ∈ c.textureInputs,
      (k = 0 ∧ t = s.colorMap) ∨ WrittenBefore (frameCalls s (some p) L) k t) ∧
    (∀ t ∈ c.cubemapInputs, k = 0 ∧ t = s.galaxy) := by
  obtain ⟨_, h0, hb, hd, hu, hc, ht, _⟩ := frameCalls_layout s p L h1 h6
  rcases frame_call_cases s p L h1 h6 k c hk with
    ⟨rfl, rfl⟩ | ⟨rfl, rfl⟩ | ⟨i, hi, rfl, rfl⟩ | ⟨i, hi, rfl, rfl⟩ | ⟨rfl, rfl⟩ | ⟨rfl, rfl⟩ |
    ⟨rfl, rfl⟩
  · constructor
    · intro t hmem
      simp only [Call.textureInputs, mainPass, List.map_cons, List.map_nil,
        List.mem_singleton] at hmem
      exact Or.inl ⟨rfl, hmem⟩
    · intro t hmem
      simp only [Call.cubemapInputs, mainPass, List.map_cons, List.map_nil,
        List.mem_singleton] at hmem
      exact ⟨rfl, hmem⟩
  · constructor
    · intro t hmem
      simp only [Call.textureInputs, brightnessPass, List.map_cons, List.map_nil,
        List.mem_singleton] at hmem
      subst hmem
      exact Or.inr ⟨0, _, by omega, h0, rfl⟩
    · intro t hmem
      simp [Call.cubemapInputs, brightnessPass] at hmem
  · constructor
    · intro t hmem
      rw [downsamplePass_natCast] at hmem
      simp only [Call.textureInputs, List.map_cons, List.map_nil, List.mem_singleton] at hmem
      right
      by_cases hz : i = 0
      · rw [if_pos hz] at hmem
        subst hmem
        exact ⟨1, _, by omega, hb, rfl⟩
      · rw [if_neg hz] at hmem
        subst hmem
        refine ⟨2 + (i - 1), _, by omega, hd (i - 1) (by omega), ?_⟩
        rw [downsamplePass_natCast]
        rfl
    · intro t hmem
      simp [Call.cubemapInputs, downsamplePass] at hmem
  · constructor
    · intro t hmem
      rw [upsamplePass_natCast] at hmem
      simp only [Call.textureInputs, List.map_cons, List.map_nil, List.mem_cons,
        List.mem_singleton, List.not_mem_nil, or_false] at hmem
      right
      rcases hmem with hmem | hmem
      · by_cases htop : i = L.toNat - 1 ∧ 1 ≤ L
        · rw [if_pos htop] at hmem
          subst hmem
          refine ⟨2 + i, _, by omega, hd i hi, ?_⟩
          rw [downsamplePass_natCast]
          rfl
        · rw [if_neg htop] at hmem
          subst hmem
          have hi1 : i + 1 < L.toNat := by omega
          refine ⟨2 + L.toNat + (L.toNat - 1 - (i + 1)), _, by omega, hu (i + 1) hi1, ?_⟩
          rw [upsamplePass_natCast]
          rfl
      · by_cases hz : i = 0
        · rw [if_pos hz] at hmem
          subst hmem
          exact ⟨1, _, by omega, hb, rfl⟩
        · rw [if_neg hz] at hmem
          subst hmem
          refine ⟨2 + (i - 1), _, by omega, hd (i - 1) (by omega), ?_⟩
          rw [downsamplePass_natCast]
          rfl
    · intro t hmem
      simp [Call.cubemapInputs, upsamplePass] at hmem
  · constructor
    · intro t hmem
      simp only [Call.textureInputs, compositePass, List.map_cons, List.map_nil, List.mem_cons,
        List.mem_singleton, List.not_mem_nil, or_false] at hmem
      right
      rcases hmem with rfl | rfl
      · exact ⟨0, _, by omega, h0, rfl⟩
      · refine ⟨2 + L.toNat + (L.toNat - 1 - 0), _, by omega, hu 0 (by omega), ?_⟩
        rfl
    · intro t hmem
      simp [Call.cubemapInputs, compositePass] at hmem
  · constructor
    · intro t hmem
      simp only [Call.textureInputs, tonemapPass, List.map_cons, List.map_nil,
        List.mem_singleton] at hmem
      subst hmem
      exact Or.inr ⟨2 * L.toNat + 2, _, by omega, hc, rfl⟩
    · intro t hmem
      simp [Call.cubemapInputs, tonemapPass] at hmem
  · constructor
    · intro t hmem
      simp only [Call.textureInputs, List.mem_singleton] at hmem
      subst hmem
      exact Or.inr ⟨2 * L.toNat + 3, _, by omega, ht, rfl⟩
    · intro t hmem
      simp [Call.cubemapInputs] at hmem

/-- C4. Forward data flow within a frame: for a bloom depth `L` with
`1 ≤ L ≤ 6`, in the calls that `main_loop` issues on an initialised state,
every 2D texture that the call at position `k` takes as an input is the target
of a call at a position before `k`, except `colorMap`, read by the main pass
at position 0; the only cubemap input is `galaxy`, also of the main pass. In
particular the composite pass reads `texUpsampled[0]`, the target of the call
just before it, which is the upsample pass of level 0. -/
theorem forward_data_flow (env : Env) (g : Globals) (p : PostProcessPass) (L : Int)
    (hinit : g.g_state.initialized = true) (hp : g.passthrough = some p)
    (hL : env.sliderInt g.bloomIterations = L) (h1 : 1 ≤ L) (h6 : L ≤ 6) :
    ∃ calls, main_loop env g = .ok ({ g with bloomIterations := L }, calls) ∧
      (∀ (k : Nat) (c : Call), calls[k]? = some c →
        (∀ t ∈ c.textureInputs, (k = 0 ∧ t = g.g_state.colorMap) ∨ WrittenBefore calls k t) ∧
        (∀ t ∈ c.cubemapInputs, k = 0 ∧ t = g.g_state.galaxy)) ∧
      calls[2 * L.toNat + 2]? = some (Call.renderToTexture (compositePass g.g_state)) ∧
      g.g_state.texUpsampled.getD 0 0 ∈
        (Call.renderToTexture (compositePass g.g_state)).textureInputs ∧
      calls[2 * L.toNat + 1]? = some (Call.renderToTexture (upsamplePass g.g_state L 0)) ∧
      (Call.renderToTexture (upsamplePass g.g_state L 0)).target =
        some (g.g_state.texUpsampled.getD 0 0) := by
  obtain ⟨_, _, _, _, hu, hc, _, _⟩ := frameCalls_layout g.g_state p L h1 h6
  refine ⟨frameCalls g.g_state (some p) L, ?_, ?_, hc, ?_, ?_, rfl⟩
  · rw [main_loop_of_initialized env g hinit, hL, hp]
  · intro k c hk
    exact frameCalls_forward g.g_state p L h1 h6 k c hk
  · simp [Call.textureInputs, compositePass, readAt]
  · have h := hu 0 (by omega)
    have hidx : 2 + L.toNat + (L.toNat - 1 - 0) = 2 * L.toNat + 1 := by omega
    rw [hidx] at h
    exact h

theorem forward_data_flow_witness :
    ∃ calls,
      main_loop workingEnv { g_state := exampleState, passthrough := some { program := 3 } } =
        .ok ({ g_state := exampleState, passthrough := some { program := 3 },
               bloomIterations := 4 }, calls) ∧
      (∀ (k : Nat) (c : Call), calls[k]? = some c →
        (∀ t ∈ c.textureInputs, (k = 0 ∧ t = 2) ∨ WrittenBefore calls k t) ∧
        (∀ t ∈ c.cubemapInputs, k = 0 ∧ t = 1)) ∧
      calls[10]? = some (Call.renderToTexture (compositePass exampleState)) ∧
      calls[9]? = some (Call.renderToTexture (upsamplePass exampleState 4 0)) :=
  match forward_data_flow workingEnv
      { g_state := exampleState, passthrough := some { program := 3 } } { program := 3 } 4
      rfl rfl rfl (by decide) (by decide) with
  | ⟨calls, hrun, hflow, hcomp, _, hlast, _⟩ => ⟨calls, hrun, hflow, hcomp, hlast⟩

/-! ## Single writer per frame -/

theorem setupHandles_length (s : AppState) : (setupHandles s).length = 19 := by
  simp [setupHandles]

theorem handle_inj (s : AppState) (hnd : (setupHandles s).Nodup) (a b : Nat)
    (ha : a < 19) (hb : b < 19)
    (h : (setupHandles s).getD a 0 = (setupHandles s).getD b 0) : a = b := by
  have hla : a < (setupHandles s).length := by rw [setupHandles_length]; exact ha
  have hlb : b < (setupHandles s).length := by rw [setupHandles_length]; exact hb
  rw [List.getD_eq_getElem _ _ hla, List.getD_eq_getElem _ _ hlb] at h
  exact (hnd.getElem_inj_iff).1 h

theorem handle_ne_zero (s : AppState) (hnz : 0 ∉ setupHandles s) (a : Nat) (ha : a < 19) :
    (setupHandles s).getD a 0 ≠ 0 := by
  have hla : a < (setupHandles s).length := by rw [setupHandles_length]; exact ha
  rw [List.getD_eq_getElem _ _ hla]
  intro h
  exact hnz (h ▸ List.getElem_mem _)

theorem handle_texDownsampled (s : AppState) (i : Nat) (hi : i < 6) :
    s.texDownsampled.getD i 0 = (setupHandles s).getD (7 + i) 0 := by
  interval_cases i <;> rfl

theorem handle_texUpsampled (s : AppState) (i : Nat) (hi : i < 6) :
    s.texUpsampled.getD i 0 = (setupHandles s).getD (13 + i) 0 := by
  interval_cases i <;> rfl

theorem frameCalls_targets (s : AppState) (p : PostProcessPass) (L : Int)
    (h1 : 1 ≤ L) (h6 : L ≤ 6) :
    (frameCalls s (some p) L).filterMap Call.target =
      (targetIndices L.toNat).map (fun n => (setupHandles s).getD n 0) := by
  rw [frameCalls_eq s (some p) L (by omega)]
  interval_cases L <;>
    simp [List.range_succ, Call.target, presentCalls, targetIndices, setupHandles, mainPass,
      brightnessPass, downsamplePass, upsamplePass, compositePass, tonemapPass, readAt]

theorem frameCalls_targets_nodup (s : AppState) (p : PostProcessPass) (L : Int)
    (h1 : 1 ≤ L) (h6 : L ≤ 6) (hnd : (setupHandles s).Nodup) :
    ((frameCalls s (some p) L).filterMap Call.target).Nodup := by
  rw [frameCalls_targets s p L h1 h6]
  have hidx : (targetIndices L.toNat).Nodup ∧ ∀ n ∈ targetIndices L.toNat, n < 19 := by
    interval_cases L <;> decide
  exact List.Nodup.map_on
    (fun a ha b hb hab => handle_inj s hnd a b (hidx.2 a ha) (hidx.2 b hb) hab) hidx.1

theorem frameCalls_targets_ne_zero (s : AppState) (p : PostProcessPass) (L : Int)
    (h1 : 1 ≤ L) (h6 : L ≤ 6) (hnz : 0 ∉ setupHandles s) :
    ∀ t ∈ (frameCalls s (some p) L).filterMap Call.target, t ≠ 0 := by
  rw [frameCalls_targets s p L h1 h6]
  have hidx : ∀ n ∈ targetIndices L.toNat, n < 19 := by
    interval_cases L <;> decide
  intro t ht
  obtain ⟨n, hn, rfl⟩ := List.mem_map.1 ht
  exact handle_ne_zero s hnz n (hidx n hn)

/-- No call of the frame takes its own target as an input. -/
theorem frameCalls_no_self_read (s : AppState) (p : PostProcessPass) (L : Int)
    (h1 : 1 ≤ L) (h6 : L ≤ 6) (hnd : (setupHandles s).Nodup) (c : Call)
    (hc : c ∈ frameCalls s (some p) L) (t : GLuint) (ht : c.target = some t) :
    t ∉ c.textureInputs ∧ t ∉ c.cubemapInputs := by
  obtain ⟨k, hk⟩ := List.mem_iff_getElem?.1 hc
  have hne : ∀ a b : Nat, a < 19 → b < 19 → a ≠ b →
      (setupHandles s).getD a 0 ≠ (setupHandles s).getD b 0 :=
    fun a b ha hb hab h => hab (handle_inj s hnd a b ha hb h)
  have hL : L.toNat ≤ 6 := by omega
  rcases frame_call_cases s p L h1 h6 k c hk with
    ⟨_, rfl⟩ | ⟨_, rfl⟩ | ⟨i, hi, _, rfl⟩ | ⟨i, hi, _, rfl⟩ | ⟨_, rfl⟩ | ⟨_, rfl⟩ | ⟨_, rfl⟩
  · simp only [Call.target, mainPass, Option.some.injEq] at ht
    subst ht
    simp only [Call.textureInputs, Call.cubemapInputs, mainPass, List.map_cons, List.map_nil,
      List.mem_singleton]
    exact ⟨hne 3 1 (by omega) (by omega) (by omega), hne 3 0 (by omega) (by omega) (by omega)⟩
  · simp only [Call.target, brightnessPass, Option.some.injEq] at ht
    subst ht
    simp only [Call.textureInputs, Call.cubemapInputs, brightnessPass, List.map_cons,
      List.map_nil, List.mem_singleton, List.not_mem_nil, not_false_eq_true, and_true]
    exact hne 4 3 (by omega) (by omega) (by omega)
  · rw [downsamplePass_natCast] at ht ⊢
    simp only [Call.target, Option.some.injEq] at ht
    subst ht
    simp only [Call.textureInputs, Call.cubemapInputs, List.map_cons, List.map_nil,
      List.mem_singleton, List.not_mem_nil, not_false_eq_true, and_true]
    rw [handle_texDownsampled s i (by omega)]
    by_cases hz : i = 0
    · rw [if_pos hz]
      exact hne (7 + i) 4 (by omega) (by omega) (by omega)
    · rw [if_neg hz, handle_texDownsampled s (i - 1) (by omega)]
      exact hne (7 + i) (7 + (i - 1)) (by omega) (by omega) (by omega)
  · rw [upsamplePass_natCast] at ht ⊢
    simp only [Call.target, Option.some.injEq] at ht
    subst ht
    simp only [Call.textureInputs, Call.cubemapInputs, List.map_cons, List.map_nil,
      List.mem_cons, List.mem_singleton, List.not_mem_nil, or_false, not_false_eq_true,
      and_true, not_or]
    rw [handle_texUpsampled s i (by omega)]
    constructor
    · by_cases htop : i = L.toNat - 1 ∧ 1 ≤ L
      · rw [if_pos htop, handle_texDownsampled s i (by omega)]
        exact hne (13 + i) (7 + i) (by omega) (by omega) (by omega)
      · rw [if_neg htop, handle_texUpsampled s (i + 1) (by omega)]
        exact hne (13 + i) (13 + (i + 1)) (by omega) (by omega) (by omega)
    · by_cases hz : i = 0
      · rw [if_pos hz]
        exact hne (13 + i) 4 (by omega) (by omega) (by omega)
      · rw [if_neg hz, handle_texDownsampled s (i - 1) (by omega)]
        exact hne (13 + i) (7 + (i - 1)) (by omega) (by omega) (by omega)
  · simp only [Call.target, compositePass, Option.some.injEq] at ht
    subst ht
    simp only [Call.textureInputs, Call.cubemapInputs, compositePass, List.map_cons,
      List.map_nil, List.mem_cons, List.mem_singleton, List.not_mem_nil, or_false,
      not_false_eq_true, and_true, not_or]
    exact ⟨hne 5 3 (by omega) (by omega) (by omega), hne 5 13 (by omega) (by omega) (by omega)⟩
  · simp only [Call.target, tonemapPass, Option.some.injEq] at ht
    subst ht
    simp only [Call.textureInputs, Call.cubemapInputs, tonemapPass, List.map_cons,
      List.map_nil, List.mem_singleton, List.not_mem_nil, not_false_eq_true, and_true]
    exact hne 6 5 (by omega) (by omega) (by omega)
  · simp [Call.target] at ht

/-- C6. Single writer per frame: for a bloom depth `L` with `1 ≤ L ≤ 6`, when
the names created at set-up are pairwise distinct and non-zero, the targets of
the calls that one call of `main_loop` issues on an initialised state are
pairwise distinct (there are `2L + 4` of them, none zero; the present call
draws to framebuffer 0, not to a texture), and no call takes the texture it
renders into as an input. -/
theorem single_writer_per_frame (env : Env) (g : Globals) (p : PostProcessPass) (L : Int)
    (hinit : g.g_state.initialized = true) (hp : g.passthrough = some p)
    (hL : env.sliderInt g.bloomIterations = L) (h1 : 1 ≤ L) (h6 : L ≤ 6)
    (hnd : (setupHandles g.g_state).Nodup) (hnz : 0 ∉ setupHandles g.g_state) :
    ∃ calls, main_loop env g = .ok ({ g with bloomIterations := L }, calls) ∧
      (calls.filterMap Call.target).Nodup ∧
      (calls.filterMap Call.target).length = 2 * L.toNat + 4 ∧
      (∀ t ∈ calls.filterMap Call.target, t ≠ 0) ∧
      (∀ c ∈ calls, ∀ t, c.target = some t → t ∉ c.textureInputs ∧ t ∉ c.cubemapInputs) := by
  refine ⟨frameCalls g.g_state (some p) L, ?_, frameCalls_targets_nodup g.g_state p L h1 h6 hnd,
    ?_, frameCalls_targets_ne_zero g.g_state p L h1 h6 hnz,
    fun c hc t ht => frameCalls_no_self_read g.g_state p L h1 h6 hnd c hc t ht⟩
  · rw [main_loop_of_initialized env g hinit, hL, hp]
  · rw [frameCalls_targets g.g_state p L h1 h6]
    simp [targetIndices]
    omega

theorem single_writer_per_frame_witness :
    (setupHandles exampleState).Nodup ∧ 0 ∉ setupHandles exampleState ∧
    ∃ calls,
      main_loop workingEnv { g_state := exampleState, passthrough := some { program := 3 } } =
        .ok ({ g_state := exampleState, passthrough := some { program := 3 },
               bloomIterations := 4 }, calls) ∧
      (calls.filterMap Call.target).Nodup ∧
      (calls.filterMap Call.target).length = 12 ∧
      (∀ c ∈ calls, ∀ t, c.target = some t → t ∉ c.textureInputs ∧ t ∉ c.cubemapInputs) :=
  ⟨by decide, by decide,
   match single_writer_per_frame workingEnv
      { g_state := exampleState, passthrough := some { program := 3 } } { program := 3 } 4
      rfl rfl rfl (by decide) (by decide) (by decide) (by decide) with
   | ⟨calls, hrun, hnodup, hlen, _, hself⟩ => ⟨calls, hrun, hnodup, hlen, hself⟩⟩

/-! ## Bloom target dimensions -/

theorem list_of_length_eight {α : Type} (l : List α) (h : l.length = 8) :
    ∃ a0 a1 a2 a3 a4 a5 a6 a7, l = [a0, a1, a2, a3, a4, a5, a6, a7] := by
  match l, h with
  | [a0, a1, a2, a3, a4, a5, a6, a7], _ => exact ⟨a0, a1, a2, a3, a4, a5, a6, a7, rfl⟩

/-- The bloom allocation loop stores, at each level `i < 6`, the names returned
by the two creation calls of that level, and appends these calls in order. -/
theorem createBloomTextures_spec (env : Env) (s : AppState) (calls : List Call)
    (hD : s.texDownsampled.length = 8) (hU : s.texUpsampled.length = 8) (i : Nat) (hi : i < 6) :
    (createBloomTextures env s calls).1.texDownsampled.getD i 0 =
      env.createColorTexture (4 + 2 * i) (SCR_WIDTH >>> (i + 1)) (SCR_HEIGHT >>> (i + 1)) ∧
    (createBloomTextures env s calls).1.texUpsampled.getD i 0 =
      env.createColorTexture (5 + 2 * i) (SCR_WIDTH >>> i) (SCR_HEIGHT >>> i) ∧
    (createBloomTextures env s calls).2[calls.length + 2 * i]? =
      some (Call.createColorTexture (SCR_WIDTH >>> (i + 1)) (SCR_HEIGHT >>> (i + 1))
        (env.createColorTexture (4 + 2 * i) (SCR_WIDTH >>> (i + 1)) (SCR_HEIGHT >>> (i + 1)))) ∧
    (createBloomTextures env s calls).2[calls.length + 2 * i + 1]? =
      some (Call.createColorTexture (SCR_WIDTH >>> i) (SCR_HEIGHT >>> i)
        (env.createColorTexture (5 + 2 * i) (SCR_WIDTH >>> i) (SCR_HEIGHT >>> i))) := by
  obtain ⟨d0, d1, d2, d3, d4, d5, d6, d7, hd⟩ := list_of_length_eight _ hD
  obtain ⟨u0, u1, u2, u3, u4, u5, u6, u7, hu⟩ := list_of_length_eight _ hU
  have hcalls : (createBloomTextures env s calls).2 = calls ++
      ((List.range 6).map (fun i =>
        [Call.createColorTexture (SCR_WIDTH >>> (i + 1)) (SCR_HEIGHT >>> (i + 1))
          (env.createColorTexture (4 + 2 * i) (SCR_WIDTH >>> (i + 1)) (SCR_HEIGHT >>> (i + 1))),
         Call.createColorTexture (SCR_WIDTH >>> i) (SCR_HEIGHT >>> i)
          (env.createColorTexture (5 + 2 * i) (SCR_WIDTH >>> i) (SCR_HEIGHT >>> i))])).flatten := by
    simp [createBloomTextures_eq, createBloomLevel, List.range_succ]
  refine ⟨?_, ?_, ?_, ?_⟩
  · interval_cases i <;> simp [createBloomTextures_eq, createBloomLevel, hd]
  · interval_cases i <;> simp [createBloomTextures_eq, createBloomLevel, hu]
  · have e : calls.length + 2 * i - calls.length = 2 * i := by omega
    rw [hcalls, List.getElem?_append_right (by omega), e]
    interval_cases i <;> simp [List.range_succ]
  · have e : calls.length + 2 * i + 1 - calls.length = 2 * i + 1 := by omega
    rw [hcalls, List.getElem?_append_right (by omega), e]
    interval_cases i <;> simp [List.range_succ]

/-- What a completed set-up did: seven calls (three loads, four full-size
textures), then the bloom allocation loop on a state with the arrays of the
initial one, then the creation of the quad. -/
theorem setup_completed_inv (env : Env) (g g1 : Globals) (calls : List Call)
    (h : setup env g = .completed g1 calls) :
    ∃ s4 c4, c4.length = 7 ∧
      s4.texDownsampled = g.g_state.texDownsampled ∧
      s4.texUpsampled = g.g_state.texUpsampled ∧
      g1.g_state.texDownsampled = (createBloomTextures env s4 c4).1.texDownsampled ∧
      g1.g_state.texUpsampled = (createBloomTextures env s4 c4).1.texUpsampled ∧
      calls = (createBloomTextures env s4 c4).2 ++ [Call.createQuadVAO env.createQuadVAO] := by
  unfold setup at h
  simp only [] at h
  split_ifs at h
  cases hc : PostProcessPass.construct env.shaders "shader/passthrough.frag" with
  | error e => simp [hc] at h
  | ok p =>
    simp only [hc, SetupResult.completed.injEq] at h
    obtain ⟨rfl, rfl⟩ := h
    refine ⟨_, _, ?_, ?_, ?_, rfl, rfl, rfl⟩
    · rfl
    · rfl
    · rfl

/-- C3. Bloom target dimensions are fixed and match their use. After a set-up
that ran to its end, for every bloom depth `L` with `1 ≤ L ≤ 6` and every level
`i < L`: the level is one of the levels `0..5` allocated by the set-up; the
set-up created `texDownsampled[i]` with size
`(SCR_WIDTH >> (i+1), SCR_HEIGHT >> (i+1))` and `texUpsampled[i]` with size
`(SCR_WIDTH >> i, SCR_HEIGHT >> i)` (its creation calls number `7 + 2i` and
`8 + 2i`); the downsample pass of level `i` renders into `texDownsampled[i]` at
exactly the first size and the upsample pass of level `i` into
`texUpsampled[i]` at exactly the second; and `texUpsampled[0]` was created at
the full resolution 1024 by 768. -/
theorem bloom_target_dimensions (env : Env) (g g1 : Globals) (setupCalls : List Call)
    (hD : g.g_state.texDownsampled.length = 8) (hU : g.g_state.texUpsampled.length = 8)
    (hsetup : setup env g = .completed g1 setupCalls)
    (L : Int) (h1 : 1 ≤ L) (h6 : L ≤ 6) (i : Nat) (hi : i < L.toNat) :
    i < 6 ∧
    setupCalls[7 + 2 * i]? =
      some (Call.createColorTexture (SCR_WIDTH >>> (i + 1)) (SCR_HEIGHT >>> (i + 1))
        (g1.g_state.texDownsampled.getD i 0)) ∧
    setupCalls[7 + 2 * i + 1]? =
      some (Call.createColorTexture (SCR_WIDTH >>> i) (SCR_HEIGHT >>> i)
        (g1.g_state.texUpsampled.getD i 0)) ∧
    (downsampleLoop g1.g_state L 0)[i]?.map (fun c => (c.target, c.viewport)) =
      some (some (g1.g_state.texDownsampled.getD i 0),
            some (SCR_WIDTH >>> (i + 1), SCR_HEIGHT >>> (i + 1))) ∧
    (upsampleLoop g1.g_state L (L - 1))[L.toNat - 1 - i]?.map (fun c => (c.target, c.viewport)) =
      some (some (g1.g_state.texUpsampled.getD i 0),
            some (SCR_WIDTH >>> i, SCR_HEIGHT >>> i)) ∧
    setupCalls[8]? =
      some (Call.createColorTexture 1024 768 (g1.g_state.texUpsampled.getD 0 0)) := by
  have hi6 : i < 6 := by omega
  obtain ⟨s4, c4, hlen, hsD, hsU, hgD, hgU, hcalls⟩ := setup_completed_inv env g g1 setupCalls hsetup
  have hspec := createBloomTextures_spec env s4 c4 (hsD ▸ hD) (hsU ▸ hU)
  obtain ⟨hd, hu, hcd, hcu⟩ := hspec i hi6
  obtain ⟨_, hu0, _, hcu0⟩ := hspec 0 (by omega)
  have hbound : ∀ k : Nat, k < 6 →
      c4.length + 2 * k + 1 < (createBloomTextures env s4 c4).2.length := by
    intro k hk
    by_contra hge
    have hnone := List.getElem?_eq_none (l := (createBloomTextures env s4 c4).2)
      (n := c4.length + 2 * k + 1) (by omega)
    rw [(createBloomTextures_spec env s4 c4 (hsD ▸ hD) (hsU ▸ hU) k hk).2.2.2] at hnone
    exact absurd hnone (by simp)
  have hb := hbound i hi6
  have hb0 := hbound 0 (by omega)
  refine ⟨hi6, ?_, ?_, ?_, ?_, ?_⟩
  · rw [hcalls, List.getElem?_append_left (by omega), hgD, hd, ← hlen, hcd]
  · rw [hcalls, List.getElem?_append_left (by omega), hgU, hu, ← hlen, hcu]
  · rw [downsampleLoop_getElem? _ L (by omega) i hi, downsamplePass_natCast]
    rfl
  · have hcast : L - 1 - ((L.toNat - 1 - i : Nat) : Int) = (i : Int) := by omega
    rw [upsampleLoop_getElem? _ L (by omega) (L.toNat - 1 - i) (by omega), hcast,
      upsamplePass_natCast]
    rfl
  · have h8 : 8 = c4.length + 2 * 0 + 1 := by omega
    rw [hcalls, List.getElem?_append_left (by omega), hgU, hu0, h8, hcu0]
    rfl

theorem bloom_target_dimensions_witness :
    ∃ setupCalls, setup workingEnv {} = .completed workingGlobals setupCalls ∧
      setupCalls[11]? = some (Call.createColorTexture 128 96 12) ∧
      setupCalls[12]? = some (Call.createColorTexture 256 192 13) ∧
      (downsampleLoop workingGlobals.g_state 4 0)[2]?.map (fun c => (c.target, c.viewport)) =
        some (some 12, some (128, 96)) ∧
      (upsampleLoop workingGlobals.g_state 4 (4 - 1))[1]?.map (fun c => (c.target, c.viewport)) =
        some (some 13, some (256, 192)) ∧
      setupCalls[8]? = some (Call.createColorTexture 1024 768 9) :=
  have hsetup : ∃ setupCalls, setup workingEnv {} = .completed workingGlobals setupCalls :=
    ⟨_, rfl⟩
  match hsetup with
  | ⟨setupCalls, hs⟩ =>
    match bloom_target_dimensions workingEnv {} workingGlobals setupCalls rfl rfl hs 4
        (by decide) (by decide) 2 (by decide) with
    | ⟨_, hcd, hcu, hpd, hpu, h0⟩ => ⟨setupCalls, hs, hcd, hcu, hpd, hpu, h0⟩

end BlackHole
